import Mathlib

/-!
Shallow embedding of the VitaNet bundle manager (`bundle_manager.py`).

The manager snapshots a SQLite store file together with metadata into a
zip bundle and can restore the store from such a bundle.  We model the
filesystem as an association list from path strings to file contents;
each public operation is a function from a filesystem (plus arguments)
to a result record and the filesystem after the call.  Scratch
(`tempfile.TemporaryDirectory`) contents are private and discarded, so
they are modelled by local values rather than entries of the main
filesystem.  Timestamps (`datetime.now`) are passed in as parameters,
and SQLite script execution (`conn.executescript`) is an external
engine, passed in as an uninterpreted function parameter `exec`.
-/

namespace VitaNet

/-- A SQLite store file: its queryable rows (abstracted as string
tuples) together with the statement sequence its change-log facility
(`conn.iterdump()`) yields. -/
structure DbFile where
  rows : List (String × String)
  dumpLines : List String
deriving DecidableEq, Repr

/-- The bundle metadata document (`bundle_metadata.json`), as produced
in `create_bundle` lines 46-52. -/
structure BundleMetadata where
  version : String
  created_at : String
  vitanet_version : String
  database_included : Bool
  custom_metadata : List (String × String)
deriving DecidableEq, Repr

/-- Content of a single archive entry inside a bundle zip. -/
inductive Entry where
  | metaE (m : BundleMetadata)
  | dbE (d : DbFile)
  | textE (lines : List String)
deriving DecidableEq, Repr

/-- Content of a file on the main filesystem.  The manager only ever
stores SQLite files, textual SQL scripts, metadata documents and zip
archives at the paths it touches. -/
inductive FileData where
  | db (d : DbFile)
  | text (lines : List String)
  | meta (m : BundleMetadata)
  | zip (entries : List (String × Entry))
deriving DecidableEq, Repr

/-- Extracting an archive entry to disk yields a plain file. -/
def Entry.toFile : Entry → FileData
  | .metaE m => .meta m
  | .dbE d => .db d
  | .textE l => .text l

/-- Copying a plain file into an archive (`shutil.copy2` into the
scratch dir, then `bundle_zip.write`).  The manager never nests an
archive inside a bundle, so that case is mapped to an opaque entry. -/
def FileData.toEntry : FileData → Entry
  | .db d => .dbE d
  | .text l => .textE l
  | .meta m => .metaE m
  | .zip _ => .textE []

/-- The filesystem: paths to file contents, first binding wins. -/
abbrev Fs := List (String × FileData)

/-- `os.path.exists` / reading a file. -/
def Fs.get : Fs → String → Option FileData
  | [], _ => none
  | (q, g) :: rest, p => if q = p then some g else Fs.get rest p

/-- Writing a file (creating it or overwriting in place). -/
def Fs.set : Fs → String → FileData → Fs
  | [], p, f => [(p, f)]
  | (q, g) :: rest, p, f =>
      if q = p then (p, f) :: rest else (q, g) :: Fs.set rest p f

/-- `os.remove`. -/
def Fs.remove : Fs → String → Fs
  | [], _ => []
  | (q, g) :: rest, p =>
      if q = p then Fs.remove rest p else (q, g) :: Fs.remove rest p

@[simp] theorem Fs.get_set_self (fs : Fs) (p : String) (f : FileData) :
    (fs.set p f).get p = some f := by
  induction fs with
  | nil => simp [Fs.set, Fs.get]
  | cons hd tl ih =>
      obtain ⟨q, g⟩ := hd
      by_cases h : q = p <;> simp [Fs.set, Fs.get, h, ih]

@[simp] theorem Fs.get_set_ne (fs : Fs) (p r : String) (f : FileData)
    (h : p ≠ r) : (fs.set p f).get r = fs.get r := by
  induction fs with
  | nil => simp [Fs.set, Fs.get, h]
  | cons hd tl ih =>
      obtain ⟨q, g⟩ := hd
      by_cases hq : q = p
      · subst hq; simp [Fs.set, Fs.get, h]
      · simp [Fs.set, Fs.get, hq, ih]

@[simp] theorem Fs.get_remove_self (fs : Fs) (p : String) :
    (fs.remove p).get p = none := by
  induction fs with
  | nil => simp [Fs.remove, Fs.get]
  | cons hd tl ih =>
      obtain ⟨q, g⟩ := hd
      by_cases h : q = p <;> simp [Fs.remove, Fs.get, h, ih]

@[simp] theorem Fs.get_remove_ne (fs : Fs) (p r : String) (h : p ≠ r) :
    (fs.remove p).get r = fs.get r := by
  induction fs with
  | nil => simp [Fs.remove, Fs.get]
  | cons hd tl ih =>
      obtain ⟨q, g⟩ := hd
      by_cases hq : q = p
      · subst hq; simp [Fs.remove, Fs.get, h, ih]
      · simp [Fs.remove, Fs.get, hq, ih]

/-- `zipfile.extractall`: write every entry, in order, into a fresh
scratch directory; a later entry with the same name overwrites an
earlier one. -/
def extractAll (entries : List (String × Entry)) : Fs :=
  entries.foldl (fun acc ne => acc.set ne.1 ne.2.toFile) []

/-- Python `str.startswith`: character-level prefix test. -/
def strStartsWith (s p : String) : Bool := p.data.isPrefixOf s.data

/-- Python `str.endswith`: character-level suffix test. -/
def strEndsWith (s p : String) : Bool := p.data.isSuffixOf s.data

/-- The schema-export loop of `_export_database_sql` (lines 255-260):
for each dump line, write it when it starts with `CREATE` or when
`line.startswith('INSERT') == False`; stop after the first line that
starts with `INSERT`. -/
def export_schema_loop : List String → List String
  | [] => []
  | l :: rest =>
      let written :=
        if strStartsWith l "CREATE" || (strStartsWith l "INSERT" == false)
        then [l] else []
      if strStartsWith l "INSERT" then written
      else written ++ export_schema_loop rest

/-- The data-export loop of `_export_database_sql` (lines 263-266):
write every dump line that starts with `INSERT`. -/
def export_data_loop : List String → List String
  | [] => []
  | l :: rest =>
      if strStartsWith l "INSERT" then l :: export_data_loop rest
      else export_data_loop rest

/-- `_export_database_sql`: the pair (schema.sql lines, data.sql lines)
produced from the store's dump sequence. -/
def export_database_sql (dump : List String) : List String × List String :=
  (export_schema_loop dump, export_data_loop dump)

/-- `BUNDLE_VERSION`. -/
def BUNDLE_VERSION : String := "1.0"

/-- `BUNDLE_EXTENSION`. -/
def BUNDLE_EXTENSION : String := ".vitanet"

/-- Machine-readable kinds behind the `error` strings the manager
returns ("Bundle file not found", "Database exists", "Invalid bundle",
"Version mismatch"); `other` stands for a propagated exception message
(`str(e)`). -/
inductive ErrKind where
  | bundleNotFound
  | destinationExists
  | malformedArchive
  | versionMismatch
  | other
deriving DecidableEq, Repr

/-- The literal `error` string the code puts in the result dict. -/
def ErrKind.codeString : ErrKind → String
  | .bundleNotFound => "Bundle file not found"
  | .destinationExists => "Database exists"
  | .malformedArchive => "Invalid bundle"
  | .versionMismatch => "Version mismatch"
  | .other => "exception"

/-- Abstract size measure for `os.path.getsize`; the manager only
passes sizes through, never branches on them. -/
def FileData.sizeBytes : FileData → Nat
  | .db d => d.rows.length + d.dumpLines.length + 1
  | .text l => l.length + 1
  | .meta _ => 1
  | .zip es => es.length + 1

/-- `create_bundle`'s result dict. -/
structure CreateResult where
  success : Bool
  error : Option ErrKind := none
  bundle_path : String := ""
  bundle_size : Option Nat := none
  metadata : Option BundleMetadata := none
deriving DecidableEq, Repr

/-- `restore_bundle`'s result dict. -/
structure RestoreResult where
  success : Bool
  error : Option ErrKind := none
  bundle_path : String := ""
  restored_from : Option String := none
  metadata : Option BundleMetadata := none
  backup_created : Bool := false
  backup_path : Option String := none
deriving DecidableEq, Repr

/-- `list_bundle_info`'s result dict. -/
structure InfoResult where
  success : Bool
  error : Option ErrKind := none
  bundle_path : String := ""
  bundle_size : Option Nat := none
  metadata : Option BundleMetadata := none
  contents : List String := []
deriving DecidableEq, Repr

/-- Appending the bundle extension when absent (`create_bundle`
lines 40-41). -/
def normBundlePath (p : String) : String :=
  if strEndsWith p BUNDLE_EXTENSION then p else p ++ BUNDLE_EXTENSION

/-- The metadata document built at `create_bundle` lines 46-52. -/
def mkMetadata (createdAt : String) (dbIncluded : Bool)
    (custom : List (String × String)) : BundleMetadata :=
  { version := BUNDLE_VERSION
    created_at := createdAt
    vitanet_version := "1.0"
    database_included := dbIncluded
    custom_metadata := custom }

/-- The dump sequence `sqlite3.connect(db_path)` + `iterdump()` yields
for the file at the store path; only SQLite store files have one. -/
def dumpOf : FileData → List String
  | .db d => d.dumpLines
  | _ => []

/-- The ordered entry list `create_bundle` writes into the archive
(lines 72-84): metadata always; raw store copy, schema script and data
script exactly when the store file exists. -/
def create_entries (dbPath createdAt : String) (fs : Fs)
    (custom : List (String × String)) : List (String × Entry) :=
  let md := mkMetadata createdAt (fs.get dbPath).isSome custom
  match fs.get dbPath with
  | some f =>
      [("bundle_metadata.json", Entry.metaE md),
       ("vitanet_backup.db", f.toEntry),
       ("schema.sql", Entry.textE (export_schema_loop (dumpOf f))),
       ("data.sql", Entry.textE (export_data_loop (dumpOf f)))]
  | none => [("bundle_metadata.json", Entry.metaE md)]

/-- `create_bundle`.  `createdAt` stands for `datetime.now(...)`;
`dumpFails` is true when the SQL-dump step (`_export_database_sql`)
raises, in which case the exception reaches the outer handler at
lines 94-99 before the archive is opened. -/
def create_bundle (dbPath createdAt : String) (fs : Fs)
    (bundlePath0 : String) (custom : List (String × String))
    (dumpFails : Bool) : CreateResult × Fs :=
  let bp := normBundlePath bundlePath0
  let md := mkMetadata createdAt (fs.get dbPath).isSome custom
  if (fs.get dbPath).isSome && dumpFails then
    ({ success := false, error := some .other }, fs)
  else
    let entries := create_entries dbPath createdAt fs custom
    let bundleFile := FileData.zip entries
    let fs1 := fs.set bp bundleFile
    ({ success := true
       bundle_path := bp
       bundle_size := some bundleFile.sizeBytes
       metadata := some md }, fs1)

/-- The sequence of main-filesystem states during one `create_bundle`
run: the state before the call, then — unless the dump step raised
first — the state after `zipfile.ZipFile(bundle_path, 'w')` creates
the archive file (zero entries written yet) and the state after each
successive `bundle_zip.write` appends one entry.  Scratch-directory
writes do not touch the main filesystem. -/
def create_trace (dbPath createdAt : String) (fs : Fs)
    (bundlePath0 : String) (custom : List (String × String))
    (dumpFails : Bool) : List Fs :=
  let bp := normBundlePath bundlePath0
  if (fs.get dbPath).isSome && dumpFails then [fs]
  else
    let entries := create_entries dbPath createdAt fs custom
    fs :: (List.range (entries.length + 1)).map
      (fun k => fs.set bp (FileData.zip (entries.take k)))

/-- The minimally initialized store `_create_empty_database` builds: a
`vitanet_info` table holding the single row ('version', '1.0').  The
dump sequence shown is the modelled SQLite change-log output for that
state. -/
def emptyDatabase : DbFile :=
  { rows := [("version", "1.0")]
    dumpLines :=
      ["BEGIN TRANSACTION;",
       "CREATE TABLE vitanet_info (id INTEGER PRIMARY KEY, key TEXT UNIQUE, value TEXT, created_at TIMESTAMP DEFAULT CURRENT_TIMESTAMP);",
       "INSERT INTO vitanet_info VALUES(1,(version),(1.0));",
       "COMMIT;"] }

/-- Reading a scratch text file for `conn.executescript`. -/
def textLinesOf : Option FileData → List String
  | some (.text l) => l
  | _ => []

/-- Outcome of `_restore_from_sql`'s two `conn.executescript` calls
against a fresh store: either both scripts run to completion and
produce a store, or one of them raises — the exception propagates
(`ScriptExecutionFailure`) and the destination is left holding
whatever partial store the failed execution produced. -/
inductive SqlExecResult where
  | ok (d : DbFile)
  | fail (leftover : DbFile)
deriving DecidableEq, Repr

/-- `restore_bundle`.  `ts` stands for the
`datetime.now().strftime(...)` backup suffix; `exec` is the SQLite
engine executing a schema script then a data script against a fresh
store (`_restore_from_sql`).  When `exec` raises (`SqlExecResult.fail`),
the exception reaches the outer handler at lines 194-199, which
returns a failure dict carrying no `restored_from`, `backup_created`
or `backup_path` keys (the record's default `none`/`false` fields). -/
def restore_bundle (dbPath ts : String)
    (exec : List String → List String → SqlExecResult)
    (fs : Fs) (bundlePath : String) (force : Bool) : RestoreResult × Fs :=
  match fs.get bundlePath with
  | none =>
      ({ success := false, error := some .bundleNotFound
         bundle_path := bundlePath }, fs)
  | some bf =>
      if (fs.get dbPath).isSome && !force then
        ({ success := false, error := some .destinationExists
           bundle_path := bundlePath }, fs)
      else
        match bf with
        | .zip entries =>
            let tempFs := extractAll entries
            match tempFs.get "bundle_metadata.json" with
            | none =>
                ({ success := false, error := some .malformedArchive
                   bundle_path := bundlePath }, fs)
            | some (.meta md) =>
                if md.version = BUNDLE_VERSION then
                  let backupPath := dbPath ++ ".backup." ++ ts
                  let backupCreated := (fs.get dbPath).isSome
                  let fs1 :=
                    match fs.get dbPath with
                    | some f => fs.set backupPath f
                    | none => fs
                  let step : Option String × Fs :=
                    match tempFs.get "vitanet_backup.db" with
                    | some e => (some "backup_database", fs1.set dbPath e)
                    | none =>
                        match tempFs.get "schema.sql" with
                        | some _ =>
                            let schemaLines := textLinesOf (tempFs.get "schema.sql")
                            let dataLines := textLinesOf (tempFs.get "data.sql")
                            match exec schemaLines dataLines with
                            | .ok dnew =>
                                (some "sql_files",
                                 (fs1.remove dbPath).set dbPath (.db dnew))
                            | .fail dpart =>
                                (none,
                                 (fs1.remove dbPath).set dbPath (.db dpart))
                        | none =>
                            (some "empty_database",
                             (fs1.remove dbPath).set dbPath (.db emptyDatabase))
                  match step.1 with
                  | some tag =>
                      ({ success := true
                         bundle_path := bundlePath
                         restored_from := some tag
                         metadata := some md
                         backup_created := backupCreated
                         backup_path :=
                           if backupCreated then some backupPath else none },
                       step.2)
                  | none =>
                      ({ success := false, error := some .other
                         bundle_path := bundlePath }, step.2)
                else
                  ({ success := false, error := some .versionMismatch
                     bundle_path := bundlePath }, fs)
            | some _ =>
                ({ success := false, error := some .other
                   bundle_path := bundlePath }, fs)
        | _ =>
            ({ success := false, error := some .other
               bundle_path := bundlePath }, fs)

/-- `list_bundle_info`: extracts only the metadata member into a
scratch directory, reads it, and lists the archive's entry names;
the main filesystem is returned untouched on every path. -/
def list_bundle_info (fs : Fs) (bundlePath : String) : InfoResult × Fs :=
  match fs.get bundlePath with
  | none =>
      ({ success := false, error := some .bundleNotFound
         bundle_path := bundlePath }, fs)
  | some bf =>
      match bf with
      | .zip entries =>
          match (extractAll entries).get "bundle_metadata.json" with
          | some (.meta md) =>
              ({ success := true
                 bundle_path := bundlePath
                 bundle_size := some bf.sizeBytes
                 metadata := some md
                 contents := entries.map Prod.fst }, fs)
          | some _ =>
              ({ success := false, error := some .other
                 bundle_path := bundlePath }, fs)
          | none =>
              ({ success := false, error := some .malformedArchive
                 bundle_path := bundlePath }, fs)
      | _ =>
          ({ success := false, error := some .other
             bundle_path := bundlePath }, fs)

/-- The representation-selection rule of `restore_bundle`
lines 162-178, keyed on which entries the extracted bundle holds. -/
def selectTag (entries : List (String × Entry)) : String :=
  let tempFs := extractAll entries
  if (tempFs.get "vitanet_backup.db").isSome then "backup_database"
  else if (tempFs.get "schema.sql").isSome then "sql_files"
  else "empty_database"

/-- A fully formed bundle: an archive whose extracted contents include
a parseable metadata document (restore and info reject anything
else). -/
def isWellFormedBundle : Option FileData → Bool
  | some (.zip entries) =>
      match (extractAll entries).get "bundle_metadata.json" with
      | some (.meta _) => true
      | _ => false
  | _ => false

/-- The queryable rows of the store file at a path. -/
def rowsAt (fs : Fs) (p : String) : Option (List (String × String)) :=
  match fs.get p with
  | some (.db d) => some d.rows
  | _ => none

/-! ## Helper lemmas -/

/-- A line starting with `INSERT` cannot start with `CREATE`. -/
theorem startsWith_INSERT_not_CREATE (l : String)
    (h : strStartsWith l "INSERT" = true) :
    strStartsWith l "CREATE" = false := by
  unfold strStartsWith at h ⊢
  have hI : "INSERT".data = 'I' :: "NSERT".data := rfl
  have hC : "CREATE".data = 'C' :: "REATE".data := rfl
  rw [hI] at h
  rw [hC]
  cases hl : l.data with
  | nil => rw [hl] at h; simp [List.isPrefixOf] at h
  | cons c cs =>
      rw [hl] at h
      simp only [List.isPrefixOf, Bool.and_eq_true, beq_iff_eq] at h
      obtain ⟨hc, -⟩ := h
      subst hc
      simp [List.isPrefixOf]

/-! ## C7 -/

/-- C7 as stated is false at a concrete input: the dump line
`BEGIN TRANSACTION;` starts with neither `CREATE` nor `INSERT`, yet
the schema-export loop writes it into the definitions sequence instead
of dropping it from both sequences. -/
theorem c7_counterexample :
    strStartsWith "BEGIN TRANSACTION;" "CREATE" = false ∧
    strStartsWith "BEGIN TRANSACTION;" "INSERT" = false ∧
    export_schema_loop ["BEGIN TRANSACTION;", "INSERT INTO t VALUES(1);"]
      = ["BEGIN TRANSACTION;"] ∧
    export_data_loop ["BEGIN TRANSACTION;", "INSERT INTO t VALUES(1);"]
      = ["INSERT INTO t VALUES(1);"] := by decide

/-- C7 (amended): the SQL export is not a keyword partition.  The
definitions sequence consists of every dump statement strictly before
the first `INSERT`-leading statement, regardless of its keyword, in
original order; the data sequence consists of exactly the
`INSERT`-leading statements, in original order.  Hence a statement that
starts with neither keyword is kept in the definitions sequence when it
precedes the first `INSERT` and dropped from both sequences otherwise,
and a `CREATE` statement after the first `INSERT` is dropped as well. -/
theorem c7_export_partition (dump : List String) :
    export_schema_loop dump
      = dump.takeWhile (fun l => !(strStartsWith l "INSERT")) ∧
    export_data_loop dump
      = dump.filter (fun l => strStartsWith l "INSERT") := by
  constructor
  · induction dump with
    | nil => rfl
    | cons l rest ih =>
        cases h : strStartsWith l "INSERT" with
        | true =>
            have hC := startsWith_INSERT_not_CREATE l h
            simp [export_schema_loop, List.takeWhile, h, hC]
        | false =>
            simp [export_schema_loop, List.takeWhile, h, ih]
  · induction dump with
    | nil => rfl
    | cons l rest ih =>
        cases h : strStartsWith l "INSERT" with
        | true => simp [export_data_loop, List.filter, h, ih]
        | false => simp [export_data_loop, List.filter, h, ih]

/-! ## Concrete fixtures -/

/-- A sample store, as in the repository's test fixture: table
`test_table` with rows (test1, 100) and (test2, 200). -/
def dbW : DbFile :=
  { rows := [("test1", "100"), ("test2", "200")]
    dumpLines :=
      ["BEGIN TRANSACTION;",
       "CREATE TABLE test_table (id INTEGER PRIMARY KEY, name TEXT, value INTEGER);",
       "INSERT INTO test_table VALUES(1,(test1),100);",
       "INSERT INTO test_table VALUES(2,(test2),200);",
       "COMMIT;"] }

/-- A trivial always-succeeding SQLite engine used only to instantiate
theorems. -/
def execW : List String → List String → SqlExecResult :=
  fun _ _ => .ok emptyDatabase

/-- A SQLite engine whose script execution always raises, leaving a
partially built store (schema half-applied, no rows) at the
destination. -/
def execFailW : List String → List String → SqlExecResult :=
  fun _ _ => .fail { rows := [], dumpLines := ["BEGIN TRANSACTION;"] }

/-- Metadata of a well-formed version-1.0 bundle. -/
def mdW : BundleMetadata := mkMetadata "2024-01-01T00:00:00+00:00" true []

/-- Metadata declaring an unsupported format version. -/
def mdBad : BundleMetadata :=
  { version := "0.9"
    created_at := "2024-01-01T00:00:00+00:00"
    vitanet_version := "1.0"
    database_included := false
    custom_metadata := [] }

/-! ## C2 -/

/-- C2 as stated is false at a concrete input: with a live store
present and `force=false`, a call whose bundle path does not exist
fails with the BundleNotFound kind ("Bundle file not found"), not with
DestinationExists, because the bundle-existence check runs first. -/
theorem c2_counterexample :
    (Fs.get [("vitanet.db", FileData.db dbW)] "missing.vitanet" = none) ∧
    (Fs.get [("vitanet.db", FileData.db dbW)] "vitanet.db").isSome = true ∧
    (restore_bundle "vitanet.db" "20240101_000000" execW
        [("vitanet.db", FileData.db dbW)] "missing.vitanet" false).1.success
      = false ∧
    (restore_bundle "vitanet.db" "20240101_000000" execW
        [("vitanet.db", FileData.db dbW)] "missing.vitanet" false).1.error
      = some ErrKind.bundleNotFound ∧
    (restore_bundle "vitanet.db" "20240101_000000" execW
        [("vitanet.db", FileData.db dbW)] "missing.vitanet" false).1.error
      ≠ some ErrKind.destinationExists := by decide

/-- C2 (amended): for every bundle path at which a file exists and
every state with a live store at the manager's store path, restore
with `force=false` fails with the DestinationExists error kind and
leaves the filesystem exactly as it was (nothing created, modified or
deleted); when no file exists at the bundle path, the call instead
fails with BundleNotFound, likewise without mutating anything. -/
theorem c2_restore_guard (dbPath ts : String)
    (exec : List String → List String → SqlExecResult) (fs : Fs)
    (bundlePath : String)
    (hb : (fs.get bundlePath).isSome = true)
    (hdb : (fs.get dbPath).isSome = true) :
    (restore_bundle dbPath ts exec fs bundlePath false).1.success = false ∧
    (restore_bundle dbPath ts exec fs bundlePath false).1.error
      = some ErrKind.destinationExists ∧
    (restore_bundle dbPath ts exec fs bundlePath false).2 = fs := by
  obtain ⟨bf, hb'⟩ := Option.isSome_iff_exists.mp hb
  simp [restore_bundle, hb', hdb]

/-- Witness instantiating `c2_restore_guard` at a concrete state. -/
theorem c2_restore_guard_witness :
    (restore_bundle "vitanet.db" "20240101_000000" execW
        [("vitanet.db", FileData.db dbW),
         ("b.vitanet", FileData.zip [("bundle_metadata.json", Entry.metaE mdW)])]
        "b.vitanet" false).1.success = false ∧
    (restore_bundle "vitanet.db" "20240101_000000" execW
        [("vitanet.db", FileData.db dbW),
         ("b.vitanet", FileData.zip [("bundle_metadata.json", Entry.metaE mdW)])]
        "b.vitanet" false).1.error = some ErrKind.destinationExists ∧
    (restore_bundle "vitanet.db" "20240101_000000" execW
        [("vitanet.db", FileData.db dbW),
         ("b.vitanet", FileData.zip [("bundle_metadata.json", Entry.metaE mdW)])]
        "b.vitanet" false).2
      = [("vitanet.db", FileData.db dbW),
         ("b.vitanet", FileData.zip [("bundle_metadata.json", Entry.metaE mdW)])] :=
  c2_restore_guard "vitanet.db" "20240101_000000" execW
    [("vitanet.db", FileData.db dbW),
     ("b.vitanet", FileData.zip [("bundle_metadata.json", Entry.metaE mdW)])]
    "b.vitanet" (by decide) (by decide)

/-! ## C3 -/

/-- C3 as stated is false at a concrete input: against a bundle whose
metadata declares version "0.9", a call with `force=false` while a live
store exists fails with DestinationExists, not VersionMismatch — the
overwrite guard runs before version validation, so the failure kind is
not independent of the force flag. -/
theorem c3_counterexample :
    (restore_bundle "vitanet.db" "20240101_000000" execW
        [("vitanet.db", FileData.db dbW),
         ("old.vitanet", FileData.zip [("bundle_metadata.json", Entry.metaE mdBad)])]
        "old.vitanet" false).1.error = some ErrKind.destinationExists ∧
    (restore_bundle "vitanet.db" "20240101_000000" execW
        [("vitanet.db", FileData.db dbW),
         ("old.vitanet", FileData.zip [("bundle_metadata.json", Entry.metaE mdBad)])]
        "old.vitanet" false).1.error ≠ some ErrKind.versionMismatch ∧
    mdBad.version ≠ BUNDLE_VERSION := by decide

/-- C3 (amended): for every bundle whose embedded metadata declares a
format version other than "1.0", whenever the call gets past the
overwrite guard (i.e. `force` is true or no live store exists — the
guard otherwise fails first with DestinationExists), restore fails
with the VersionMismatch error kind and leaves the filesystem exactly
as it was: no backup is made and no representation is imported. -/
theorem c3_version_mismatch (dbPath ts : String)
    (exec : List String → List String → SqlExecResult) (fs : Fs)
    (bundlePath : String) (entries : List (String × Entry))
    (md : BundleMetadata) (force : Bool)
    (hb : fs.get bundlePath = some (.zip entries))
    (hm : (extractAll entries).get "bundle_metadata.json" = some (.meta md))
    (hv : md.version ≠ BUNDLE_VERSION)
    (hguard : force = true ∨ fs.get dbPath = none) :
    (restore_bundle dbPath ts exec fs bundlePath force).1.success = false ∧
    (restore_bundle dbPath ts exec fs bundlePath force).1.error
      = some ErrKind.versionMismatch ∧
    (restore_bundle dbPath ts exec fs bundlePath force).2 = fs := by
  rcases hguard with hf | hn
  · subst hf; simp [restore_bundle, hb, hm, hv]
  · simp [restore_bundle, hb, hm, hv, hn]

/-- Witness instantiating `c3_version_mismatch` at a concrete state. -/
theorem c3_version_mismatch_witness :
    (restore_bundle "vitanet.db" "20240101_000000" execW
        [("old.vitanet", FileData.zip [("bundle_metadata.json", Entry.metaE mdBad)])]
        "old.vitanet" true).1.success = false ∧
    (restore_bundle "vitanet.db" "20240101_000000" execW
        [("old.vitanet", FileData.zip [("bundle_metadata.json", Entry.metaE mdBad)])]
        "old.vitanet" true).1.error = some ErrKind.versionMismatch ∧
    (restore_bundle "vitanet.db" "20240101_000000" execW
        [("old.vitanet", FileData.zip [("bundle_metadata.json", Entry.metaE mdBad)])]
        "old.vitanet" true).2
      = [("old.vitanet", FileData.zip [("bundle_metadata.json", Entry.metaE mdBad)])] :=
  c3_version_mismatch "vitanet.db" "20240101_000000" execW
    [("old.vitanet", FileData.zip [("bundle_metadata.json", Entry.metaE mdBad)])]
    "old.vitanet" [("bundle_metadata.json", Entry.metaE mdBad)] mdBad true
    (by decide) (by decide) (by decide) (Or.inl rfl)

/-! ## C4 -/

/-- The timestamped backup path is never the store path itself. -/
theorem backup_path_ne (dbPath ts : String) :
    dbPath ++ ".backup." ++ ts ≠ dbPath := by
  intro h
  have hlen := congrArg String.length h
  have h8 : ".backup.".length = 8 := rfl
  rw [String.length_append, String.length_append, h8] at hlen
  omega

/-- C4 as stated is false at a concrete input: a forced restore that
passes version validation but whose SQL import raises (bundle carries
`schema.sql` only, and `conn.executescript` fails on it) writes the
backup at line 158, yet the exception handler at lines 194-199 returns
a failure dict with no `backup_created`/`backup_path` keys — the
result does not report the backup that was created. -/
theorem c4_counterexample :
    (restore_bundle "vitanet.db" "20240101_000000" execFailW
        [("vitanet.db", FileData.db dbW),
         ("b.vitanet", FileData.zip
            [("bundle_metadata.json", Entry.metaE mdW),
             ("schema.sql", Entry.textE ["CREATE TABLE broken ("])])]
        "b.vitanet" true).1.success = false ∧
    (restore_bundle "vitanet.db" "20240101_000000" execFailW
        [("vitanet.db", FileData.db dbW),
         ("b.vitanet", FileData.zip
            [("bundle_metadata.json", Entry.metaE mdW),
             ("schema.sql", Entry.textE ["CREATE TABLE broken ("])])]
        "b.vitanet" true).1.backup_created = false ∧
    (restore_bundle "vitanet.db" "20240101_000000" execFailW
        [("vitanet.db", FileData.db dbW),
         ("b.vitanet", FileData.zip
            [("bundle_metadata.json", Entry.metaE mdW),
             ("schema.sql", Entry.textE ["CREATE TABLE broken ("])])]
        "b.vitanet" true).1.backup_path = none ∧
    (restore_bundle "vitanet.db" "20240101_000000" execFailW
        [("vitanet.db", FileData.db dbW),
         ("b.vitanet", FileData.zip
            [("bundle_metadata.json", Entry.metaE mdW),
             ("schema.sql", Entry.textE ["CREATE TABLE broken ("])])]
        "b.vitanet" true).2.get "vitanet.db.backup.20240101_000000"
      = some (FileData.db dbW) := by decide

/-- C4 (amended): on every forced restore against an existing
destination store that passes version validation, exactly one backup
is created — the old destination content is copied to the timestamped
sibling path before any overwrite, persists when the call returns
(never deleted by the component, even when the SQL import raises), and
no path other than the store path and the backup path is touched.  The
result reports `backup_created = true` with that path only on success;
when the import raises, the failure dict carries no
`backup_created`/`backup_path` keys although the backup was written. -/
theorem c4_force_backup (dbPath ts : String)
    (exec : List String → List String → SqlExecResult) (fs : Fs)
    (bundlePath : String) (entries : List (String × Entry))
    (md : BundleMetadata) (f : FileData)
    (hb : fs.get bundlePath = some (.zip entries))
    (hm : (extractAll entries).get "bundle_metadata.json" = some (.meta md))
    (hv : md.version = BUNDLE_VERSION)
    (hdb : fs.get dbPath = some f) :
    (restore_bundle dbPath ts exec fs bundlePath true).2.get
        (dbPath ++ ".backup." ++ ts) = some f ∧
    (∀ q, q ≠ dbPath → q ≠ dbPath ++ ".backup." ++ ts →
      (restore_bundle dbPath ts exec fs bundlePath true).2.get q
        = fs.get q) ∧
    ((restore_bundle dbPath ts exec fs bundlePath true).1.success = true →
      (restore_bundle dbPath ts exec fs bundlePath true).1.backup_created
          = true ∧
      (restore_bundle dbPath ts exec fs bundlePath true).1.backup_path
          = some (dbPath ++ ".backup." ++ ts)) ∧
    ((restore_bundle dbPath ts exec fs bundlePath true).1.success = false →
      (restore_bundle dbPath ts exec fs bundlePath true).1.backup_created
          = false ∧
      (restore_bundle dbPath ts exec fs bundlePath true).1.backup_path
          = none) := by
  have hne : dbPath ≠ dbPath ++ ".backup." ++ ts :=
    fun h => backup_path_ne dbPath ts h.symm
  cases hraw : (extractAll entries).get "vitanet_backup.db" with
  | some e =>
      refine ⟨?_, ?_, ?_, ?_⟩ <;>
        simp [restore_bundle, hb, hm, hv, hdb, hraw]
      · rw [Fs.get_set_ne _ _ _ _ hne, Fs.get_set_self]
      · intro q hq1 hq2
        rw [Fs.get_set_ne _ _ _ _ (Ne.symm hq1),
            Fs.get_set_ne _ _ _ _ (Ne.symm hq2)]
  | none =>
      cases hschema : (extractAll entries).get "schema.sql" with
      | some s =>
          cases hexec : exec (textLinesOf (some s))
              (textLinesOf ((extractAll entries).get "data.sql")) with
          | ok dnew =>
              refine ⟨?_, ?_, ?_, ?_⟩ <;>
                simp [restore_bundle, hb, hm, hv, hdb, hraw, hschema, hexec]
              · rw [Fs.get_set_ne _ _ _ _ hne, Fs.get_remove_ne _ _ _ hne,
                    Fs.get_set_self]
              · intro q hq1 hq2
                rw [Fs.get_set_ne _ _ _ _ (Ne.symm hq1),
                    Fs.get_remove_ne _ _ _ (Ne.symm hq1),
                    Fs.get_set_ne _ _ _ _ (Ne.symm hq2)]
          | fail dpart =>
              refine ⟨?_, ?_, ?_, ?_⟩ <;>
                simp [restore_bundle, hb, hm, hv, hdb, hraw, hschema, hexec]
              · rw [Fs.get_set_ne _ _ _ _ hne, Fs.get_remove_ne _ _ _ hne,
                    Fs.get_set_self]
              · intro q hq1 hq2
                rw [Fs.get_set_ne _ _ _ _ (Ne.symm hq1),
                    Fs.get_remove_ne _ _ _ (Ne.symm hq1),
                    Fs.get_set_ne _ _ _ _ (Ne.symm hq2)]
      | none =>
          refine ⟨?_, ?_, ?_, ?_⟩ <;>
            simp [restore_bundle, hb, hm, hv, hdb, hraw, hschema]
          · rw [Fs.get_set_ne _ _ _ _ hne, Fs.get_remove_ne _ _ _ hne,
                Fs.get_set_self]
          · intro q hq1 hq2
            rw [Fs.get_set_ne _ _ _ _ (Ne.symm hq1),
                Fs.get_remove_ne _ _ _ (Ne.symm hq1),
                Fs.get_set_ne _ _ _ _ (Ne.symm hq2)]

/-- Witness instantiating `c4_force_backup` at a concrete state on
the successful raw-entry path, with the frame conjunct evaluated at
the untouched path `notes.txt` and the reporting conjunct discharged
at the evaluated `success = true`. -/
theorem c4_force_backup_witness :
    (restore_bundle "vitanet.db" "20240101_000000" execW
        [("vitanet.db", FileData.db dbW),
         ("notes.txt", FileData.text ["hello"]),
         ("b.vitanet", FileData.zip
            [("bundle_metadata.json", Entry.metaE mdW),
             ("vitanet_backup.db", Entry.dbE dbW)])]
        "b.vitanet" true).2.get "vitanet.db.backup.20240101_000000"
      = some (FileData.db dbW) ∧
    (restore_bundle "vitanet.db" "20240101_000000" execW
        [("vitanet.db", FileData.db dbW),
         ("notes.txt", FileData.text ["hello"]),
         ("b.vitanet", FileData.zip
            [("bundle_metadata.json", Entry.metaE mdW),
             ("vitanet_backup.db", Entry.dbE dbW)])]
        "b.vitanet" true).2.get "notes.txt"
      = some (FileData.text ["hello"]) ∧
    (restore_bundle "vitanet.db" "20240101_000000" execW
        [("vitanet.db", FileData.db dbW),
         ("notes.txt", FileData.text ["hello"]),
         ("b.vitanet", FileData.zip
            [("bundle_metadata.json", Entry.metaE mdW),
             ("vitanet_backup.db", Entry.dbE dbW)])]
        "b.vitanet" true).1.backup_created = true ∧
    (restore_bundle "vitanet.db" "20240101_000000" execW
        [("vitanet.db", FileData.db dbW),
         ("notes.txt", FileData.text ["hello"]),
         ("b.vitanet", FileData.zip
            [("bundle_metadata.json", Entry.metaE mdW),
             ("vitanet_backup.db", Entry.dbE dbW)])]
        "b.vitanet" true).1.backup_path
      = some "vitanet.db.backup.20240101_000000" := by
  have h := c4_force_backup "vitanet.db" "20240101_000000" execW
    [("vitanet.db", FileData.db dbW),
     ("notes.txt", FileData.text ["hello"]),
     ("b.vitanet", FileData.zip
        [("bundle_metadata.json", Entry.metaE mdW),
         ("vitanet_backup.db", Entry.dbE dbW)])]
    "b.vitanet"
    [("bundle_metadata.json", Entry.metaE mdW),
     ("vitanet_backup.db", Entry.dbE dbW)]
    mdW (FileData.db dbW) (by decide) (by decide) (by decide) (by decide)
  have h3 := h.2.2.1 (by decide)
  refine ⟨h.1, ?_, h3.1, h3.2⟩
  rw [h.2.1 "notes.txt" (by decide) (by decide)]
  decide


/-! ## C5 -/

/-- C5 as stated is false at a concrete input: a successful restore
from a bundle carrying the raw store entry reports
`restored_from = "backup_database"`, which is none of the three values
"raw_copy", "sql_dump", "empty_store" the claim allows. -/
theorem c5_counterexample :
    (restore_bundle "vitanet.db" "20240101_000000" execW
        [("b.vitanet", FileData.zip
            [("bundle_metadata.json", Entry.metaE mdW),
             ("vitanet_backup.db", Entry.dbE dbW)])]
        "b.vitanet" false).1.success = true ∧
    (restore_bundle "vitanet.db" "20240101_000000" execW
        [("b.vitanet", FileData.zip
            [("bundle_metadata.json", Entry.metaE mdW),
             ("vitanet_backup.db", Entry.dbE dbW)])]
        "b.vitanet" false).1.restored_from = some "backup_database" ∧
    (restore_bundle "vitanet.db" "20240101_000000" execW
        [("b.vitanet", FileData.zip
            [("bundle_metadata.json", Entry.metaE mdW),
             ("vitanet_backup.db", Entry.dbE dbW)])]
        "b.vitanet" false).1.restored_from ≠ some "raw_copy" ∧
    (restore_bundle "vitanet.db" "20240101_000000" execW
        [("b.vitanet", FileData.zip
            [("bundle_metadata.json", Entry.metaE mdW),
             ("vitanet_backup.db", Entry.dbE dbW)])]
        "b.vitanet" false).1.restored_from ≠ some "sql_dump" ∧
    (restore_bundle "vitanet.db" "20240101_000000" execW
        [("b.vitanet", FileData.zip
            [("bundle_metadata.json", Entry.metaE mdW),
             ("vitanet_backup.db", Entry.dbE dbW)])]
        "b.vitanet" false).1.restored_from ≠ some "empty_store" := by decide

/-- C5 (amended): on every successful restore the result's
`restored_from` field is one of exactly "backup_database", "sql_files"
or "empty_database", chosen by the priority order of `selectTag`:
"backup_database" whenever the extracted bundle contains the raw store
entry `vitanet_backup.db`, else "sql_files" whenever it contains the
definitions script `schema.sql`, else "empty_database" with a freshly
created minimally-initialized store. -/
theorem c5_restored_from_tag (dbPath ts : String)
    (exec : List String → List String → SqlExecResult) (fs : Fs)
    (bundlePath : String) (force : Bool)
    (entries : List (String × Entry))
    (hb : fs.get bundlePath = some (.zip entries)) :
    (restore_bundle dbPath ts exec fs bundlePath force).1.success = true →
    (restore_bundle dbPath ts exec fs bundlePath force).1.restored_from
      = some (selectTag entries) := by
  by_cases hg : ((fs.get dbPath).isSome && !force) = true
  · simp [restore_bundle, hb, hg]
  · have hg' : ((fs.get dbPath).isSome && !force) = false := by
      cases hx : ((fs.get dbPath).isSome && !force) <;> simp_all
    cases hm : (extractAll entries).get "bundle_metadata.json" with
    | none => simp [restore_bundle, hb, hg', hm]
    | some fd =>
        cases fd with
        | meta md =>
            by_cases hv : md.version = BUNDLE_VERSION
            · cases hraw : (extractAll entries).get "vitanet_backup.db" with
              | some e =>
                  simp [restore_bundle, selectTag, hb, hg', hm, hv, hraw]
              | none =>
                  cases hschema : (extractAll entries).get "schema.sql" with
                  | some s =>
                      cases hexec : exec (textLinesOf (some s))
                          (textLinesOf ((extractAll entries).get "data.sql")) with
                      | ok dnew =>
                          simp [restore_bundle, selectTag, hb, hg', hm, hv,
                            hraw, hschema, hexec]
                      | fail dpart =>
                          simp [restore_bundle, selectTag, hb, hg', hm, hv,
                            hraw, hschema, hexec]
                  | none =>
                      simp [restore_bundle, selectTag, hb, hg', hm, hv,
                        hraw, hschema]
            · simp [restore_bundle, hb, hg', hm, hv]
        | db d => simp [restore_bundle, hb, hg', hm]
        | text l => simp [restore_bundle, hb, hg', hm]
        | zip es => simp [restore_bundle, hb, hg', hm]

/-- Witness instantiating `c5_restored_from_tag` on a successful
raw-entry restore. -/
theorem c5_restored_from_tag_witness :
    (restore_bundle "vitanet.db" "20240101_000000" execW
        [("b.vitanet", FileData.zip
            [("bundle_metadata.json", Entry.metaE mdW),
             ("vitanet_backup.db", Entry.dbE dbW)])]
        "b.vitanet" false).1.restored_from
      = some (selectTag
          [("bundle_metadata.json", Entry.metaE mdW),
           ("vitanet_backup.db", Entry.dbE dbW)]) :=
  c5_restored_from_tag "vitanet.db" "20240101_000000" execW
    [("b.vitanet", FileData.zip
        [("bundle_metadata.json", Entry.metaE mdW),
         ("vitanet_backup.db", Entry.dbE dbW)])]
    "b.vitanet" false
    [("bundle_metadata.json", Entry.metaE mdW),
     ("vitanet_backup.db", Entry.dbE dbW)]
    (by decide) (by decide)

/-! ## C6 -/

/-- C6 as stated is false at a concrete input: `create_bundle` opens
the archive directly at the destination path (only the bundle
*contents* are staged in the scratch directory), so the execution
trace contains a state — right after `zipfile.ZipFile(bundle_path,
'w')` creates the file and before any entry is written — in which the
destination holds a file that is not a fully formed bundle: an archive
without the required metadata entry. -/
theorem c6_counterexample :
    (Fs.set [("vitanet.db", FileData.db dbW)] "b.vitanet" (FileData.zip []))
      ∈ create_trace "vitanet.db" "2024-01-01T00:00:00+00:00"
          [("vitanet.db", FileData.db dbW)] "b" [] false ∧
    (Fs.set [("vitanet.db", FileData.db dbW)] "b.vitanet"
        (FileData.zip [])).get "b.vitanet" = some (FileData.zip []) ∧
    isWellFormedBundle (some (FileData.zip [])) = false := by decide

/-- C6 (amended): the bundle contents are staged in a private scratch
directory, but the archive itself is written entry by entry directly
at the destination path, not scratch-then-published.  What holds is:
at every point of the execution the destination path holds either its
original content or an archive whose entries are a prefix of the final
bundle's entry list — so an interrupted create can leave an incomplete
(even metadata-less) archive at the destination. -/
theorem c6_create_trace_shape (dbPath createdAt : String) (fs : Fs)
    (bundlePath0 : String) (custom : List (String × String))
    (dumpFails : Bool) :
    ∀ fsMid ∈ create_trace dbPath createdAt fs bundlePath0 custom dumpFails,
      fsMid.get (normBundlePath bundlePath0)
          = fs.get (normBundlePath bundlePath0) ∨
      ∃ k, fsMid.get (normBundlePath bundlePath0)
          = some (FileData.zip
              ((create_entries dbPath createdAt fs custom).take k)) := by
  intro fsMid hmem
  by_cases hg : ((fs.get dbPath).isSome && dumpFails) = true
  · simp only [create_trace, hg, if_true] at hmem
    simp only [List.mem_singleton] at hmem
    subst hmem
    exact Or.inl rfl
  · simp only [create_trace, hg, Bool.false_eq_true, if_false] at hmem
    rcases List.mem_cons.mp hmem with h | h
    · subst h; exact Or.inl rfl
    · rcases List.mem_map.mp h with ⟨k, -, hk⟩
      subst hk
      exact Or.inr ⟨k, Fs.get_set_self _ _ _⟩

/-- Witness instantiating `c6_create_trace_shape` at a concrete
mid-build state. -/
theorem c6_create_trace_shape_witness :
    (Fs.set [("vitanet.db", FileData.db dbW)] "b.vitanet"
        (FileData.zip [])).get (normBundlePath "b")
        = Fs.get [("vitanet.db", FileData.db dbW)] (normBundlePath "b") ∨
    ∃ k, (Fs.set [("vitanet.db", FileData.db dbW)] "b.vitanet"
        (FileData.zip [])).get (normBundlePath "b")
        = some (FileData.zip
            ((create_entries "vitanet.db" "2024-01-01T00:00:00+00:00"
                [("vitanet.db", FileData.db dbW)] []).take k)) :=
  c6_create_trace_shape "vitanet.db" "2024-01-01T00:00:00+00:00"
    [("vitanet.db", FileData.db dbW)] "b" [] false
    (Fs.set [("vitanet.db", FileData.db dbW)] "b.vitanet" (FileData.zip []))
    (by decide)

/-! ## C8 -/

/-- C8 as stated is false at a concrete input: when the SQL-dump step
raises while a store exists, `create_bundle` does not proceed past the
failure — it returns `success=false` and writes no bundle file at
all. -/
theorem c8_counterexample :
    (create_bundle "vitanet.db" "2024-01-01T00:00:00+00:00"
        [("vitanet.db", FileData.db dbW)] "b" [] true).1.success = false ∧
    (create_bundle "vitanet.db" "2024-01-01T00:00:00+00:00"
        [("vitanet.db", FileData.db dbW)] "b" [] true).2
      = [("vitanet.db", FileData.db dbW)] ∧
    (create_bundle "vitanet.db" "2024-01-01T00:00:00+00:00"
        [("vitanet.db", FileData.db dbW)] "b" [] true).2.get "b.vitanet"
      = none := by decide

/-- C8 (amended): a failure while producing the SqlDump representation
does fail the export.  `_export_database_sql` is called inside the
same try block as everything else (there is no inner handler), so the
exception reaches the outer handler at lines 94-99: `create_bundle`
returns `success=false` and, since the dump step runs before the
archive is opened, the filesystem is left unchanged — no bundle
(RawCopy included or not) is produced. -/
theorem c8_dump_failure_fails_create (dbPath createdAt : String)
    (fs : Fs) (bundlePath0 : String) (custom : List (String × String))
    (hdb : (fs.get dbPath).isSome = true) :
    (create_bundle dbPath createdAt fs bundlePath0 custom true).1.success
      = false ∧
    (create_bundle dbPath createdAt fs bundlePath0 custom true).1.error
      = some ErrKind.other ∧
    (create_bundle dbPath createdAt fs bundlePath0 custom true).2 = fs := by
  simp [create_bundle, hdb]

/-- Witness instantiating `c8_dump_failure_fails_create`. -/
theorem c8_dump_failure_fails_create_witness :
    (create_bundle "vitanet.db" "2024-01-01T00:00:00+00:00"
        [("vitanet.db", FileData.db dbW)] "b" [] true).1.success = false ∧
    (create_bundle "vitanet.db" "2024-01-01T00:00:00+00:00"
        [("vitanet.db", FileData.db dbW)] "b" [] true).1.error
      = some ErrKind.other ∧
    (create_bundle "vitanet.db" "2024-01-01T00:00:00+00:00"
        [("vitanet.db", FileData.db dbW)] "b" [] true).2
      = [("vitanet.db", FileData.db dbW)] :=
  c8_dump_failure_fails_create "vitanet.db" "2024-01-01T00:00:00+00:00"
    [("vitanet.db", FileData.db dbW)] "b" [] (by decide)

/-! ## C9 -/

/-- C9: `list_bundle_info` returns the filesystem untouched on every
path (it never creates, modifies or deletes the live store or any
other file), repeated calls on the same bundle return the identical
result, and a bundle containing only the metadata entry is handled
successfully, with that metadata and the single entry name. -/
theorem c9_info_pure_idempotent (fs : Fs) (p : String) :
    (list_bundle_info fs p).2 = fs ∧
    list_bundle_info (list_bundle_info fs p).2 p = list_bundle_info fs p ∧
    (∀ m, fs.get p
        = some (FileData.zip [("bundle_metadata.json", Entry.metaE m)]) →
      (list_bundle_info fs p).1.success = true ∧
      (list_bundle_info fs p).1.metadata = some m ∧
      (list_bundle_info fs p).1.contents = ["bundle_metadata.json"]) := by
  have hframe : (list_bundle_info fs p).2 = fs := by
    cases hb : fs.get p with
    | none => simp [list_bundle_info, hb]
    | some bf =>
        cases bf with
        | zip entries =>
            cases hm : (extractAll entries).get "bundle_metadata.json" with
            | none => simp [list_bundle_info, hb, hm]
            | some fd => cases fd <;> simp [list_bundle_info, hb, hm]
        | db d => simp [list_bundle_info, hb]
        | text l => simp [list_bundle_info, hb]
        | meta m => simp [list_bundle_info, hb]
  refine ⟨hframe, by rw [hframe], ?_⟩
  intro m hm
  simp [list_bundle_info, hm, extractAll, Fs.set, Fs.get, Entry.toFile]

/-- Witness instantiating `c9_info_pure_idempotent` on a metadata-only
bundle. -/
theorem c9_info_pure_idempotent_witness :
    (list_bundle_info
        [("only.vitanet",
          FileData.zip [("bundle_metadata.json", Entry.metaE mdW)])]
        "only.vitanet").2
      = [("only.vitanet",
          FileData.zip [("bundle_metadata.json", Entry.metaE mdW)])] ∧
    list_bundle_info
        (list_bundle_info
          [("only.vitanet",
            FileData.zip [("bundle_metadata.json", Entry.metaE mdW)])]
          "only.vitanet").2 "only.vitanet"
      = list_bundle_info
          [("only.vitanet",
            FileData.zip [("bundle_metadata.json", Entry.metaE mdW)])]
          "only.vitanet" ∧
    (list_bundle_info
        [("only.vitanet",
          FileData.zip [("bundle_metadata.json", Entry.metaE mdW)])]
        "only.vitanet").1.success = true ∧
    (list_bundle_info
        [("only.vitanet",
          FileData.zip [("bundle_metadata.json", Entry.metaE mdW)])]
        "only.vitanet").1.metadata = some mdW ∧
    (list_bundle_info
        [("only.vitanet",
          FileData.zip [("bundle_metadata.json", Entry.metaE mdW)])]
        "only.vitanet").1.contents = ["bundle_metadata.json"] := by
  have h := c9_info_pure_idempotent
    [("only.vitanet", FileData.zip [("bundle_metadata.json", Entry.metaE mdW)])]
    "only.vitanet"
  have h3 := h.2.2 mdW (by decide)
  exact ⟨h.1, h.2.1, h3.1, h3.2.1, h3.2.2⟩

/-! ## C10 -/

/-- C10: representation selection keys only on the raw store entry and
the definitions script.  For every bundle containing a data script but
neither `vitanet_backup.db` nor `schema.sql`, restore (here on a fresh
destination, so the guard passes for any `force`) takes the
empty-store branch: it reports `restored_from = "empty_database"`,
materializes the fresh minimally-initialized store at the store path,
touches no other path, and never executes the data script — the final
state does not depend on the data script's contents nor on the SQL
engine `exec` at all. -/
theorem c10_data_only_empty_branch (dbPath ts : String)
    (exec : List String → List String → SqlExecResult) (fs : Fs)
    (bundlePath : String) (entries : List (String × Entry))
    (md : BundleMetadata) (force : Bool)
    (hb : fs.get bundlePath = some (.zip entries))
    (hm : (extractAll entries).get "bundle_metadata.json" = some (.meta md))
    (hv : md.version = BUNDLE_VERSION)
    (hraw : (extractAll entries).get "vitanet_backup.db" = none)
    (hschema : (extractAll entries).get "schema.sql" = none)
    (hdata : ((extractAll entries).get "data.sql").isSome = true)
    (hdb : fs.get dbPath = none) :
    (restore_bundle dbPath ts exec fs bundlePath force).1.success = true ∧
    (restore_bundle dbPath ts exec fs bundlePath force).1.restored_from
      = some "empty_database" ∧
    (restore_bundle dbPath ts exec fs bundlePath force).2.get dbPath
      = some (FileData.db emptyDatabase) ∧
    (∀ q, q ≠ dbPath →
      (restore_bundle dbPath ts exec fs bundlePath force).2.get q
        = fs.get q) := by
  refine ⟨?_, ?_, ?_, ?_⟩ <;>
    simp [restore_bundle, hb, hdb, hm, hv, hraw, hschema]
  intro q hq
  rw [Fs.get_set_ne _ _ _ _ (Ne.symm hq), Fs.get_remove_ne _ _ _ (Ne.symm hq)]

/-- Witness instantiating `c10_data_only_empty_branch` on a bundle
holding metadata and a data script only, with the frame conjunct
evaluated at the bundle's own path. -/
theorem c10_data_only_empty_branch_witness :
    (restore_bundle "vitanet.db" "20240101_000000" execW
        [("b.vitanet", FileData.zip
            [("bundle_metadata.json", Entry.metaE mdW),
             ("data.sql", Entry.textE ["INSERT INTO t VALUES(9);"])])]
        "b.vitanet" false).1.success = true ∧
    (restore_bundle "vitanet.db" "20240101_000000" execW
        [("b.vitanet", FileData.zip
            [("bundle_metadata.json", Entry.metaE mdW),
             ("data.sql", Entry.textE ["INSERT INTO t VALUES(9);"])])]
        "b.vitanet" false).1.restored_from = some "empty_database" ∧
    (restore_bundle "vitanet.db" "20240101_000000" execW
        [("b.vitanet", FileData.zip
            [("bundle_metadata.json", Entry.metaE mdW),
             ("data.sql", Entry.textE ["INSERT INTO t VALUES(9);"])])]
        "b.vitanet" false).2.get "vitanet.db"
      = some (FileData.db emptyDatabase) ∧
    (restore_bundle "vitanet.db" "20240101_000000" execW
        [("b.vitanet", FileData.zip
            [("bundle_metadata.json", Entry.metaE mdW),
             ("data.sql", Entry.textE ["INSERT INTO t VALUES(9);"])])]
        "b.vitanet" false).2.get "b.vitanet"
      = Fs.get
          [("b.vitanet", FileData.zip
              [("bundle_metadata.json", Entry.metaE mdW),
               ("data.sql", Entry.textE ["INSERT INTO t VALUES(9);"])])]
          "b.vitanet" := by
  have h := c10_data_only_empty_branch "vitanet.db" "20240101_000000" execW
    [("b.vitanet", FileData.zip
        [("bundle_metadata.json", Entry.metaE mdW),
         ("data.sql", Entry.textE ["INSERT INTO t VALUES(9);"])])]
    "b.vitanet"
    [("bundle_metadata.json", Entry.metaE mdW),
     ("data.sql", Entry.textE ["INSERT INTO t VALUES(9);"])]
    mdW false (by decide) (by decide) (by decide) (by decide) (by decide)
    (by decide) (by decide)
  exact ⟨h.1, h.2.1, h.2.2.1, h.2.2.2 "b.vitanet" (by decide)⟩

/-! ## C1 -/

/-- Extraction of the four-entry archive `create_bundle` writes when a
store exists. -/
theorem extractAll_quad (m : BundleMetadata) (d : DbFile)
    (s t : List String) :
    extractAll
        [("bundle_metadata.json", Entry.metaE m),
         ("vitanet_backup.db", Entry.dbE d),
         ("schema.sql", Entry.textE s),
         ("data.sql", Entry.textE t)]
      = [("bundle_metadata.json", FileData.meta m),
         ("vitanet_backup.db", FileData.db d),
         ("schema.sql", FileData.text s),
         ("data.sql", FileData.text t)] := by
  simp [extractAll, Fs.set, Entry.toFile]

/-- C1: round trip via the RawCopy path.  Starting from a store with
rows `d.rows`, `create_bundle` succeeds and the produced bundle carries
the raw store entry byte-identically; restoring that bundle onto a
fresh destination (the live store removed) succeeds via the raw-copy
branch and yields a destination store whose queryable rows equal
`d.rows`. -/
theorem c1_roundtrip_rawcopy (dbPath createdAt ts bundlePath0 : String)
    (custom : List (String × String))
    (exec : List String → List String → SqlExecResult) (fs : Fs) (d : DbFile)
    (cres : CreateResult) (fs1 : Fs) (rres : RestoreResult) (fs2 : Fs)
    (hdb : fs.get dbPath = some (FileData.db d))
    (hne : normBundlePath bundlePath0 ≠ dbPath)
    (hc : create_bundle dbPath createdAt fs bundlePath0 custom false
            = (cres, fs1))
    (hr : restore_bundle dbPath ts exec (fs1.remove dbPath)
            (normBundlePath bundlePath0) false = (rres, fs2)) :
    cres.success = true ∧
    (∃ entries,
      fs1.get (normBundlePath bundlePath0) = some (FileData.zip entries) ∧
      (extractAll entries).get "vitanet_backup.db"
        = some (FileData.db d)) ∧
    rres.success = true ∧
    rres.restored_from = some "backup_database" ∧
    fs2.get dbPath = some (FileData.db d) ∧
    rowsAt fs2 dbPath = some d.rows := by
  have hent : create_entries dbPath createdAt fs custom
      = [("bundle_metadata.json",
            Entry.metaE (mkMetadata createdAt true custom)),
         ("vitanet_backup.db", Entry.dbE d),
         ("schema.sql", Entry.textE (export_schema_loop d.dumpLines)),
         ("data.sql", Entry.textE (export_data_loop d.dumpLines))] := by
    simp [create_entries, hdb, FileData.toEntry, dumpOf]
  have hcreate : create_bundle dbPath createdAt fs bundlePath0 custom false
      = ({ success := true
           bundle_path := normBundlePath bundlePath0
           bundle_size := some (FileData.zip
              (create_entries dbPath createdAt fs custom)).sizeBytes
           metadata := some (mkMetadata createdAt true custom) },
         fs.set (normBundlePath bundlePath0)
           (FileData.zip (create_entries dbPath createdAt fs custom))) := by
    simp [create_bundle, hdb, mkMetadata]
  rw [hcreate] at hc
  injection hc with hcres hfs1
  subst hfs1
  rw [hent] at hr ⊢
  have hext := extractAll_quad (mkMetadata createdAt true custom) d
    (export_schema_loop d.dumpLines) (export_data_loop d.dumpLines)
  have hget_b :
      ((fs.set (normBundlePath bundlePath0)
          (FileData.zip
            [("bundle_metadata.json",
                Entry.metaE (mkMetadata createdAt true custom)),
             ("vitanet_backup.db", Entry.dbE d),
             ("schema.sql", Entry.textE (export_schema_loop d.dumpLines)),
             ("data.sql", Entry.textE (export_data_loop d.dumpLines))])).remove
        dbPath).get (normBundlePath bundlePath0)
      = some (FileData.zip
          [("bundle_metadata.json",
              Entry.metaE (mkMetadata createdAt true custom)),
           ("vitanet_backup.db", Entry.dbE d),
           ("schema.sql", Entry.textE (export_schema_loop d.dumpLines)),
           ("data.sql", Entry.textE (export_data_loop d.dumpLines))]) := by
    rw [Fs.get_remove_ne _ _ _ (Ne.symm hne), Fs.get_set_self]
  have hget_db :
      ((fs.set (normBundlePath bundlePath0)
          (FileData.zip
            [("bundle_metadata.json",
                Entry.metaE (mkMetadata createdAt true custom)),
             ("vitanet_backup.db", Entry.dbE d),
             ("schema.sql", Entry.textE (export_schema_loop d.dumpLines)),
             ("data.sql", Entry.textE (export_data_loop d.dumpLines))])).remove
        dbPath).get dbPath = none := Fs.get_remove_self _ _
  have hmetaL : (extractAll
        [("bundle_metadata.json",
            Entry.metaE (mkMetadata createdAt true custom)),
         ("vitanet_backup.db", Entry.dbE d),
         ("schema.sql", Entry.textE (export_schema_loop d.dumpLines)),
         ("data.sql", Entry.textE (export_data_loop d.dumpLines))]).get
      "bundle_metadata.json"
      = some (FileData.meta (mkMetadata createdAt true custom)) := by
    rw [hext]; simp [Fs.get]
  have hrawL : (extractAll
        [("bundle_metadata.json",
            Entry.metaE (mkMetadata createdAt true custom)),
         ("vitanet_backup.db", Entry.dbE d),
         ("schema.sql", Entry.textE (export_schema_loop d.dumpLines)),
         ("data.sql", Entry.textE (export_data_loop d.dumpLines))]).get
      "vitanet_backup.db" = some (FileData.db d) := by
    rw [hext]; simp [Fs.get]
  rw [show restore_bundle dbPath ts exec
        ((fs.set (normBundlePath bundlePath0)
            (FileData.zip
              [("bundle_metadata.json",
                  Entry.metaE (mkMetadata createdAt true custom)),
               ("vitanet_backup.db", Entry.dbE d),
               ("schema.sql", Entry.textE (export_schema_loop d.dumpLines)),
               ("data.sql", Entry.textE (export_data_loop d.dumpLines))])).remove
          dbPath)
        (normBundlePath bundlePath0) false
      = ({ success := true
           bundle_path := normBundlePath bundlePath0
           restored_from := some "backup_database"
           metadata := some (mkMetadata createdAt true custom)
           backup_created := false
           backup_path := none },
         ((fs.set (normBundlePath bundlePath0)
            (FileData.zip
              [("bundle_metadata.json",
                  Entry.metaE (mkMetadata createdAt true custom)),
               ("vitanet_backup.db", Entry.dbE d),
               ("schema.sql", Entry.textE (export_schema_loop d.dumpLines)),
               ("data.sql", Entry.textE (export_data_loop d.dumpLines))])).remove
          dbPath).set dbPath (FileData.db d)) from by
      have hv : (mkMetadata createdAt true custom).version = BUNDLE_VERSION :=
        rfl
      simp [restore_bundle, hget_b, hget_db, hmetaL, hrawL, hv]] at hr
  injection hr with hrres hfs2
  subst hfs2
  refine ⟨?_,
    ⟨[("bundle_metadata.json", Entry.metaE (mkMetadata createdAt true custom)),
      ("vitanet_backup.db", Entry.dbE d),
      ("schema.sql", Entry.textE (export_schema_loop d.dumpLines)),
      ("data.sql", Entry.textE (export_data_loop d.dumpLines))], ?_, ?_⟩,
    ?_, ?_, ?_, ?_⟩
  · rw [← hcres]
  · exact Fs.get_set_self _ _ _
  · exact hrawL
  · rw [← hrres]
  · rw [← hrres]
  · exact Fs.get_set_self _ _ _
  · simp [rowsAt, Fs.get_set_self]

/-- Witness instantiating `c1_roundtrip_rawcopy` on the test-fixture
store. -/
theorem c1_roundtrip_rawcopy_witness :
    (create_bundle "vitanet.db" "2024-01-01T00:00:00+00:00"
        [("vitanet.db", FileData.db dbW)] "b" [] false).1.success = true ∧
    (∃ entries,
      (create_bundle "vitanet.db" "2024-01-01T00:00:00+00:00"
          [("vitanet.db", FileData.db dbW)] "b" [] false).2.get
          (normBundlePath "b")
        = some (FileData.zip entries) ∧
      (extractAll entries).get "vitanet_backup.db"
        = some (FileData.db dbW)) ∧
    (restore_bundle "vitanet.db" "20240101_000000" execW
        ((create_bundle "vitanet.db" "2024-01-01T00:00:00+00:00"
            [("vitanet.db", FileData.db dbW)] "b" [] false).2.remove
          "vitanet.db")
        (normBundlePath "b") false).1.success = true ∧
    (restore_bundle "vitanet.db" "20240101_000000" execW
        ((create_bundle "vitanet.db" "2024-01-01T00:00:00+00:00"
            [("vitanet.db", FileData.db dbW)] "b" [] false).2.remove
          "vitanet.db")
        (normBundlePath "b") false).1.restored_from
      = some "backup_database" ∧
    (restore_bundle "vitanet.db" "20240101_000000" execW
        ((create_bundle "vitanet.db" "2024-01-01T00:00:00+00:00"
            [("vitanet.db", FileData.db dbW)] "b" [] false).2.remove
          "vitanet.db")
        (normBundlePath "b") false).2.get "vitanet.db"
      = some (FileData.db dbW) ∧
    rowsAt
      (restore_bundle "vitanet.db" "20240101_000000" execW
          ((create_bundle "vitanet.db" "2024-01-01T00:00:00+00:00"
              [("vitanet.db", FileData.db dbW)] "b" [] false).2.remove
            "vitanet.db")
          (normBundlePath "b") false).2 "vitanet.db"
      = some dbW.rows :=
  c1_roundtrip_rawcopy "vitanet.db" "2024-01-01T00:00:00+00:00"
    "20240101_000000" "b" [] execW
    [("vitanet.db", FileData.db dbW)] dbW
    (create_bundle "vitanet.db" "2024-01-01T00:00:00+00:00"
        [("vitanet.db", FileData.db dbW)] "b" [] false).1
    (create_bundle "vitanet.db" "2024-01-01T00:00:00+00:00"
        [("vitanet.db", FileData.db dbW)] "b" [] false).2
    (restore_bundle "vitanet.db" "20240101_000000" execW
        ((create_bundle "vitanet.db" "2024-01-01T00:00:00+00:00"
            [("vitanet.db", FileData.db dbW)] "b" [] false).2.remove
          "vitanet.db")
        (normBundlePath "b") false).1
    (restore_bundle "vitanet.db" "20240101_000000" execW
        ((create_bundle "vitanet.db" "2024-01-01T00:00:00+00:00"
            [("vitanet.db", FileData.db dbW)] "b" [] false).2.remove
          "vitanet.db")
        (normBundlePath "b") false).2
    (by decide) (by decide) rfl rfl

end VitaNet
